import Mathlib

/-!
Verification development for the pygame_audio_player repository.

The file embeds the playback scheduler of src/main.py (class
ThreadForPlayer) and the periodic-trigger control of class MainWindow as
pure Lean functions, and proves the testable properties of the
specification against them.

Modelling conventions:
- Wall-clock times and clip durations (Python floats) are rationals.
- The worker loop body of ThreadForPlayer.run is one step function
  runStep taking the current time; the pair it returns carries the new
  scheduler state together with the backend call and the emitted
  sound_played notification, when a clip was started.
- Python exceptions are Option/Except values: none or Except.error marks
  a raised, uncaught exception at that point of the source.
-/

/-- A loaded audio clip, as the epsound WavFile object: only its decoded
duration matters to the scheduler. -/
structure WavFile where
  duration : ℚ
  deriving DecidableEq

/-- One element of the ThreadForPlayer queue: the tuple
(sound, sound_name, library, device) put by the two request slots. -/
structure QueueItem where
  sound : WavFile
  name : String
  library : String
  device : String
  deriving DecidableEq

/-- The mutable state of ThreadForPlayer: fields _finish_time, _index,
_queue, _sound_names and _sounds of src/main.py. -/
structure PlayerState where
  finish_time : Option ℚ
  index : Nat
  queue : List QueueItem
  sound_names : List String
  sounds : List WavFile
  deriving DecidableEq

/-- The backend side effect performed by _play_sound: either the pygame
branch (mixer.Sound(path).play()) or the epsound branch
(set_device device / remove_device, then play). -/
inductive BackendCall where
  | pygame (sound_name : String)
  | epsound (device : Option String) (sound_name : String)
  deriving DecidableEq

/-- Backend dispatch of _play_sound: the pygame branch when the library
is "pygame", otherwise the epsound branch, binding the device when the
device string is non-empty (truthy) and falling back to the default
device otherwise. -/
def backendCallFor (library device sound_name : String) : BackendCall :=
  if library = "pygame" then BackendCall.pygame sound_name
  else if device = "" then BackendCall.epsound none sound_name
  else BackendCall.epsound (some device) sound_name

/-- Lexicographic comparison of character sequences by code point, the
order Python sorted uses on the filenames returned by os.listdir. -/
def lexLe : List Char → List Char → Bool
  | [], _ => true
  | _ :: _, [] => false
  | a :: as, b :: bs =>
      if a.toNat < b.toNat then true
      else if b.toNat < a.toNat then false
      else lexLe as bs

/-- Lexicographic order on filenames, by code point. -/
def strLe (a b : String) : Bool := lexLe a.data b.data

/-- ThreadForPlayer.__init__ over the directory contents, given as pairs
of filename and decoded duration: the files are sorted by name
(sorted(os.listdir(...))) and loaded into the parallel lists _sounds and
_sound_names; _finish_time starts as None, _index as 0, _queue empty.
The constructor raises only when the directory is missing or a file
cannot be decoded, conditions outside this input type; in particular an
empty directory constructs a normal state. -/
def ThreadForPlayer.init (files : List (String × ℚ)) : PlayerState :=
  let sorted_files := List.insertionSort (fun a b => strLe a.1 b.1 = true) files
  { finish_time := none
    index := 0
    queue := []
    sound_names := sorted_files.map Prod.fst
    sounds := sorted_files.map (fun f => ⟨f.2⟩) }

/-- The cursor value actually used by play_next_sound: the source first
resets _index to 0 when _index >= len(_sound_names), then reads at
_index. -/
def effIdx (s : PlayerState) : Nat :=
  if s.sound_names.length ≤ s.index then 0 else s.index

/-- Slot ThreadForPlayer.play_next_sound: wraps the cursor to 0 at the
catalog length, enqueues the clip at the cursor, and advances the
cursor. On an empty catalog the list indexing raises IndexError,
modelled as none. -/
def ThreadForPlayer.play_next_sound (library device : String) (s : PlayerState) :
    Option PlayerState :=
  match s.sounds[effIdx s]?, s.sound_names[effIdx s]? with
  | some snd, some sound_name =>
      some { s with
              queue := s.queue ++ [⟨snd, sound_name, library, device⟩]
              index := effIdx s + 1 }
  | _, _ => none

/-- The linear scan of play_sound_by_name: index of the first catalog
name equal to the requested name, with the running index as
accumulator. -/
def findSoundIndex (sound_name : String) : List String → Nat → Option Nat
  | [], _ => none
  | s :: rest, i => if s = sound_name then some i else findSoundIndex sound_name rest (i + 1)

/-- Slot ThreadForPlayer.play_sound_by_name: scans the catalog for the
name and enqueues the matching clip; a name absent from the catalog
falls through the loop and the request is dropped with the state
untouched. The inner none is unreachable for states whose parallel
lists have equal length. -/
def ThreadForPlayer.play_sound_by_name (sound_name library device : String)
    (s : PlayerState) : Option PlayerState :=
  match findSoundIndex sound_name s.sound_names 0 with
  | none => some s
  | some i =>
      match s.sounds[i]? with
      | some snd =>
          some { s with queue := s.queue ++ [⟨snd, sound_name, library, device⟩] }
      | none => none

/-- The loop condition of ThreadForPlayer.run: the queue is non-empty
and either _finish_time is None or the current time is strictly past
it. -/
def ThreadForPlayer.canPlay (now : ℚ) (s : PlayerState) : Bool :=
  !s.queue.isEmpty &&
    (match s.finish_time with
     | none => true
     | some t => decide (t < now))

/-- One iteration of ThreadForPlayer.run together with the body of
_play_sound: when the loop condition holds, the head of the queue is
taken, the backend call is issued, _finish_time is set to
now + duration + 0.1 (the 100 ms guard interval) and the sound_played
notification is emitted with the clip name; otherwise the loop sleeps
and nothing changes. -/
def ThreadForPlayer.runStep (now : ℚ) (s : PlayerState) :
    PlayerState × Option (BackendCall × String) :=
  if ThreadForPlayer.canPlay now s then
    match s.queue with
    | [] => (s, none)
    | it :: rest =>
        ({ s with
            queue := rest
            finish_time := some (now + it.sound.duration + 1/10) },
         some (backendCallFor it.library it.device it.name, it.name))
  else (s, none)

/-- One iteration of ThreadForPlayer.run when the backend call of
_play_sound may raise. The source has no try/except: a raised backend
error propagates out of _play_sound and out of run, which is modelled
as Except.error; the queue item is already taken, _finish_time is not
set and no notification is emitted. -/
def ThreadForPlayer.runStepExc (backend_raises : Bool) (now : ℚ) (s : PlayerState) :
    Except Unit (PlayerState × Option (BackendCall × String)) :=
  if ThreadForPlayer.canPlay now s then
    match s.queue with
    | [] => Except.ok (s, none)
    | it :: rest =>
        if backend_raises then Except.error ()
        else
          Except.ok
            ({ s with
                queue := rest
                finish_time := some (now + it.sound.duration + 1/10) },
             some (backendCallFor it.library it.device it.name, it.name))
  else Except.ok (s, none)

/-- Slot ThreadForPlayer.stop_current_queue: clears the queue in place
and touches nothing else. -/
def ThreadForPlayer.stop_current_queue (s : PlayerState) : PlayerState :=
  { s with queue := [] }

/-- k successive invocations of the play_next_sound slot. -/
def ThreadForPlayer.playNextN (library device : String) (s : PlayerState) :
    Nat → Option PlayerState
  | 0 => some s
  | k + 1 =>
      (ThreadForPlayer.playNextN library device s k).bind
        (ThreadForPlayer.play_next_sound library device)

/-- The state of the QTimer driving the periodic trigger: whether it is
running and its interval in milliseconds. -/
structure TimerState where
  active : Bool
  interval : Int
  deriving DecidableEq

/-- Outcome of the MainWindow.start slot: either the interval text was
rejected by int() and logged, or the timer was launched with the parsed
delay. -/
inductive StartOutcome where
  | rejected (log_line : String)
  | launched (delay : Int)
  deriving DecidableEq

/-- Conversion of a digit list to its decimal value. -/
def digitsToNat (cs : List Char) : Option Nat :=
  if cs.isEmpty then none
  else if cs.all Char.isDigit then
    some (cs.foldl (fun acc c => 10 * acc + (c.toNat - 48)) 0)
  else none

/-- The Python int() conversion applied by MainWindow.start to the text
of the delay line edit: an optional sign followed by at least one
decimal digit parses to the signed value, anything else raises
ValueError, modelled as none. The line edit validator restricts the
reachable texts to plain digit strings and the empty string, all of
which this model covers exactly. -/
def pyInt (s : String) : Option Int :=
  match s.data with
  | '-' :: cs => (digitsToNat cs).map (fun n => -(n : Int))
  | '+' :: cs => (digitsToNat cs).map (fun n => (n : Int))
  | cs => (digitsToNat cs).map (fun n => (n : Int))

/-- Slot MainWindow.start: parses the delay text with int(); on a
ValueError it appends the wrong-value log line and returns with the
timer untouched; on success it sets the timer interval to the parsed
delay, whatever its sign, and starts the timer. -/
def MainWindow.start (text : String) (w : TimerState) : TimerState × StartOutcome :=
  match pyInt text with
  | none => (w, StartOutcome.rejected ("Wrong delay time value " ++ text))
  | some delay => ({ active := true, interval := delay }, StartOutcome.launched delay)

/-- Slot MainWindow.stop: stops the timer and emits sounds_not_required,
which is connected to ThreadForPlayer.stop_current_queue, clearing the
pending queue. -/
def MainWindow.stop (w : TimerState) (p : PlayerState) : TimerState × PlayerState :=
  ({ w with active := false }, ThreadForPlayer.stop_current_queue p)

example :
    ThreadForPlayer.play_next_sound "pygame" ""
        (ThreadForPlayer.init [("B.wav", (1 : ℚ)), ("A.wav", 2)]) =
      some { finish_time := none
             index := 1
             queue := [⟨⟨2⟩, "A.wav", "pygame", ""⟩]
             sound_names := ["A.wav", "B.wav"]
             sounds := [⟨2⟩, ⟨1⟩] } := by decide

example : pyInt "250" = some 250 := by decide

example : pyInt "" = none ∧ pyInt "12a" = none ∧ pyInt "-7" = some (-7) := by decide

/-! Helper lemmas shared by the claim theorems. -/

theorem findSoundIndex_eq_none (sound_name : String) :
    ∀ (names : List String) (i : Nat), sound_name ∉ names →
      findSoundIndex sound_name names i = none := by
  intro names
  induction names with
  | nil => intro i _; rfl
  | cons hd tl ih =>
      intro i h
      have hne : hd ≠ sound_name := fun he => h (he ▸ List.mem_cons_self hd tl)
      simpa [findSoundIndex, hne] using ih (i + 1) (fun ht => h (List.mem_cons_of_mem hd ht))

theorem getq_of_lt {α : Type} (l : List α) (i : Nat) (d : α) (h : i < l.length) :
    l[i]? = some (l.getD i d) := by
  rw [List.getD_eq_getElem?_getD, List.getElem?_eq_getElem h]
  rfl

theorem effIdx_lt (s : PlayerState) (h : 0 < s.sound_names.length) :
    effIdx s < s.sound_names.length := by
  unfold effIdx
  split <;> omega

theorem succ_wrap (b L : Nat) (h : b < L) :
    (if L ≤ b + 1 then 0 else b + 1) = (b + 1) % L := by
  split
  · have hb : b + 1 = L := by omega
    rw [hb, Nat.mod_self]
  · rw [Nat.mod_eq_of_lt (by omega)]

theorem play_next_sound_eq (library device : String) (s : PlayerState)
    (hlen : s.sounds.length = s.sound_names.length)
    (hpos : 0 < s.sound_names.length) :
    ThreadForPlayer.play_next_sound library device s =
      some { s with
              queue := s.queue ++
                [⟨s.sounds.getD (effIdx s) ⟨0⟩, s.sound_names.getD (effIdx s) "",
                  library, device⟩]
              index := effIdx s + 1 } := by
  have h1 : effIdx s < s.sound_names.length := effIdx_lt s hpos
  have h2 : effIdx s < s.sounds.length := by rw [hlen]; exact h1
  unfold ThreadForPlayer.play_next_sound
  rw [getq_of_lt s.sounds _ ⟨0⟩ h2, getq_of_lt s.sound_names _ "" h1]

theorem playNextN_trace (library device : String) (k : Nat) :
    ∀ (s : PlayerState),
      s.sounds.length = s.sound_names.length → 0 < s.sound_names.length →
      ∃ s', ThreadForPlayer.playNextN library device s k = some s' ∧
        s'.sound_names = s.sound_names ∧ s'.sounds = s.sounds ∧
        s'.finish_time = s.finish_time ∧
        s'.queue.map QueueItem.name = s.queue.map QueueItem.name ++
          (List.range k).map
            (fun i => s.sound_names.getD ((effIdx s + i) % s.sound_names.length) "") ∧
        effIdx s' = (effIdx s + k) % s.sound_names.length := by
  induction k with
  | zero =>
      intro s hlen hpos
      refine ⟨s, rfl, rfl, rfl, rfl, by simp, ?_⟩
      simp [Nat.mod_eq_of_lt (effIdx_lt s hpos)]
  | succ k ih =>
      intro s hlen hpos
      obtain ⟨t, ht, hnm, hsd, hft, hq, he⟩ := ih s hlen hpos
      have hlen_t : t.sounds.length = t.sound_names.length := by rw [hnm, hsd]; exact hlen
      have hpos_t : 0 < t.sound_names.length := by rw [hnm]; exact hpos
      have hstep := play_next_sound_eq library device t hlen_t hpos_t
      have et : effIdx t < s.sound_names.length := by
        rw [← hnm]; exact effIdx_lt t hpos_t
      refine ⟨{ t with
          queue := t.queue ++
            [⟨t.sounds.getD (effIdx t) ⟨0⟩, t.sound_names.getD (effIdx t) "",
              library, device⟩]
          index := effIdx t + 1 }, ?_, ?_, ?_, ?_, ?_, ?_⟩
      · show (ThreadForPlayer.playNextN library device s k).bind
            (ThreadForPlayer.play_next_sound library device) = some _
        rw [ht, Option.some_bind]
        exact hstep
      · exact hnm
      · exact hsd
      · exact hft
      · simp only [List.map_append, List.map_cons, List.map_nil, hq, hnm, he,
          List.range_succ, List.append_assoc]
      · show (if t.sound_names.length ≤ effIdx t + 1 then 0 else effIdx t + 1) = _
        rw [hnm, succ_wrap _ _ et, he, Nat.mod_add_mod, Nat.add_assoc]

theorem play_next_sound_frame (library device : String) (s s' : PlayerState)
    (h : ThreadForPlayer.play_next_sound library device s = some s') :
    s'.finish_time = s.finish_time ∧ s'.sound_names = s.sound_names ∧
    s'.sounds = s.sounds ∧ ∃ it, s'.queue = s.queue ++ [it] := by
  revert h
  unfold ThreadForPlayer.play_next_sound
  rcases s.sounds[effIdx s]? with _ | snd <;>
    rcases s.sound_names[effIdx s]? with _ | nm <;>
    intro h <;> simp at h
  rw [← h]
  exact ⟨rfl, rfl, rfl, _, rfl⟩

theorem play_sound_by_name_frame (sound_name library device : String) (s s' : PlayerState)
    (h : ThreadForPlayer.play_sound_by_name sound_name library device s = some s') :
    s'.finish_time = s.finish_time ∧ s'.index = s.index ∧
    s'.sound_names = s.sound_names ∧ s'.sounds = s.sounds ∧
    (s'.queue = s.queue ∨ ∃ it, s'.queue = s.queue ++ [it]) := by
  unfold ThreadForPlayer.play_sound_by_name at h
  split at h
  · simp at h
    rw [← h]
    exact ⟨rfl, rfl, rfl, rfl, Or.inl rfl⟩
  · split at h
    · simp at h
      rw [← h]
      exact ⟨rfl, rfl, rfl, rfl, Or.inr ⟨_, rfl⟩⟩
    · exact absurd h (by simp)

theorem canPlay_false_of_busy (now u : ℚ) (s : PlayerState)
    (hft : s.finish_time = some u) (hnow : ¬ u < now) :
    ThreadForPlayer.canPlay now s = false := by
  unfold ThreadForPlayer.canPlay
  rw [hft]
  simp [hnow]

theorem canPlay_true_of_elapsed (now u : ℚ) (s : PlayerState) (it : QueueItem)
    (rest : List QueueItem) (hq : s.queue = it :: rest)
    (hft : s.finish_time = some u) (hnow : u < now) :
    ThreadForPlayer.canPlay now s = true := by
  unfold ThreadForPlayer.canPlay
  rw [hq, hft]
  simp [hnow]

theorem canPlay_true_of_idle (now : ℚ) (s : PlayerState) (it : QueueItem)
    (rest : List QueueItem) (hq : s.queue = it :: rest)
    (hft : s.finish_time = none) :
    ThreadForPlayer.canPlay now s = true := by
  unfold ThreadForPlayer.canPlay
  rw [hq, hft]
  simp

theorem runStep_skip (now : ℚ) (s : PlayerState)
    (h : ThreadForPlayer.canPlay now s = false) :
    ThreadForPlayer.runStep now s = (s, none) := by
  unfold ThreadForPlayer.runStep
  rw [h]
  simp

theorem runStep_play (now : ℚ) (s : PlayerState) (it : QueueItem)
    (rest : List QueueItem) (hq : s.queue = it :: rest)
    (hc : ThreadForPlayer.canPlay now s = true) :
    ThreadForPlayer.runStep now s =
      ({ s with
          queue := rest
          finish_time := some (now + it.sound.duration + 1/10) },
       some (backendCallFor it.library it.device it.name, it.name)) := by
  unfold ThreadForPlayer.runStep
  rw [hc, hq]
  simp

theorem lexLe_cons (a b : Char) (as bs : List Char) :
    lexLe (a :: as) (b :: bs) =
      if a.toNat < b.toNat then true
      else if b.toNat < a.toNat then false
      else lexLe as bs := rfl

theorem lexLe_total : ∀ as bs : List Char, lexLe as bs = true ∨ lexLe bs as = true := by
  intro as
  induction as with
  | nil => intro bs; left; rfl
  | cons a as ih =>
      intro bs
      cases bs with
      | nil => right; rfl
      | cons b bs =>
          rw [lexLe_cons, lexLe_cons]
          by_cases h1 : a.toNat < b.toNat
          · left; simp [h1]
          · by_cases h2 : b.toNat < a.toNat
            · right; simp [h1, h2]
            · rcases ih bs with h | h
              · left; simp [h1, h2, h]
              · right; simp [h1, h2, h]

theorem lexLe_trans : ∀ as bs cs : List Char,
    lexLe as bs = true → lexLe bs cs = true → lexLe as cs = true := by
  intro as
  induction as with
  | nil => intro bs cs h1 h2; rfl
  | cons a as ih =>
      intro bs cs h1 h2
      cases bs with
      | nil => exact absurd h1 (by simp [lexLe])
      | cons b bs =>
          cases cs with
          | nil => exact absurd h2 (by simp [lexLe])
          | cons c cs =>
              rw [lexLe_cons] at h1 h2 ⊢
              by_cases hab : a.toNat < b.toNat
              · by_cases hbc : b.toNat < c.toNat
                · simp [lt_trans hab hbc]
                · by_cases hcb : c.toNat < b.toNat
                  · rw [if_neg hbc, if_pos hcb] at h2
                    exact absurd h2 (by simp)
                  · have hac : a.toNat < c.toNat := by omega
                    simp [hac]
              · by_cases hba : b.toNat < a.toNat
                · rw [if_neg hab, if_pos hba] at h1
                  exact absurd h1 (by simp)
                · rw [if_neg hab, if_neg hba] at h1
                  by_cases hbc : b.toNat < c.toNat
                  · have hac : a.toNat < c.toNat := by omega
                    simp [hac]
                  · by_cases hcb : c.toNat < b.toNat
                    · rw [if_neg hbc, if_pos hcb] at h2
                      exact absurd h2 (by simp)
                    · rw [if_neg hbc, if_neg hcb] at h2
                      have hac : ¬ a.toNat < c.toNat := by omega
                      have hca : ¬ c.toNat < a.toNat := by omega
                      rw [if_neg hac, if_neg hca]
                      exact ih bs cs h1 h2

instance : IsTotal (String × ℚ) (fun a b => strLe a.1 b.1 = true) :=
  ⟨fun a b => lexLe_total a.1.data b.1.data⟩

instance : IsTrans (String × ℚ) (fun a b => strLe a.1 b.1 = true) :=
  ⟨fun a b c h1 h2 => lexLe_trans a.1.data b.1.data c.1.data h1 h2⟩

/-! Concrete example states used by the witness theorems. -/

/-- A scheduler state busy until time 5 with one queued request. -/
def exBusy : PlayerState :=
  { finish_time := some 5
    index := 0
    queue := [⟨⟨2⟩, "A.wav", "pygame", ""⟩]
    sound_names := ["A.wav"]
    sounds := [⟨2⟩] }

/-- An idle scheduler state with one queued request. -/
def exIdle : PlayerState :=
  { finish_time := none
    index := 0
    queue := [⟨⟨1⟩, "A.wav", "pygame", ""⟩]
    sound_names := ["A.wav"]
    sounds := [⟨1⟩] }

/-- A scheduler state whose busy window ended at time 0, with one queued
epsound request. -/
def exErr : PlayerState :=
  { finish_time := some 0
    index := 0
    queue := [⟨⟨3⟩, "B.wav", "epsound", "d"⟩]
    sound_names := ["B.wav"]
    sounds := [⟨3⟩] }

/-- The state reached from exBusy by clearing the queue and then
enqueueing one next-in-sequence request for epsound on device dev. -/
def exAfterClear : PlayerState :=
  { finish_time := some 5
    index := 1
    queue := [⟨⟨2⟩, "A.wav", "epsound", "dev"⟩]
    sound_names := ["A.wav"]
    sounds := [⟨2⟩] }

/-- The state reached from exBusy by a named request for A.wav. -/
def exKnown : PlayerState :=
  { finish_time := some 5
    index := 0
    queue := [⟨⟨2⟩, "A.wav", "pygame", ""⟩, ⟨⟨2⟩, "A.wav", "pygame", ""⟩]
    sound_names := ["A.wav"]
    sounds := [⟨2⟩] }

/-! The claims. -/

/-- C1: for every non-empty catalog and every number k of successive
next-in-sequence requests, the catalog built by init is in lexicographic
filename order and the k enqueued clip names cycle through it in that
order, the request number i enqueueing the name at position i modulo the
catalog length, wrapping to the first entry after the last. -/
theorem play_next_sound_cycles (files : List (String × ℚ)) (library device : String)
    (k : Nat) (hne : files ≠ []) :
    List.Sorted (fun a b : String => strLe a b = true)
      (ThreadForPlayer.init files).sound_names ∧
    ∃ s', ThreadForPlayer.playNextN library device (ThreadForPlayer.init files) k =
        some s' ∧
      s'.queue.map QueueItem.name =
        (List.range k).map
          (fun i => (ThreadForPlayer.init files).sound_names.getD
            (i % (ThreadForPlayer.init files).sound_names.length) "") := by
  have hlen : (ThreadForPlayer.init files).sounds.length =
      (ThreadForPlayer.init files).sound_names.length := by
    simp [ThreadForPlayer.init]
  have hpos : 0 < (ThreadForPlayer.init files).sound_names.length := by
    simp [ThreadForPlayer.init]
    exact List.length_pos.mpr hne
  constructor
  · have hs : List.Sorted (fun a b : String × ℚ => strLe a.1 b.1 = true)
        (List.insertionSort (fun a b => strLe a.1 b.1 = true) files) :=
      List.sorted_insertionSort _ files
    have hmapped : List.Sorted (fun a b : String => strLe a b = true)
        ((List.insertionSort (fun a b => strLe a.1 b.1 = true) files).map Prod.fst) :=
      List.Pairwise.map Prod.fst (fun a b hab => hab) hs
    simpa [ThreadForPlayer.init] using hmapped
  · obtain ⟨s', h1, _, _, _, hq, _⟩ :=
      playNextN_trace library device k (ThreadForPlayer.init files) hlen hpos
    refine ⟨s', h1, ?_⟩
    have he0 : effIdx (ThreadForPlayer.init files) = 0 := by
      simp [effIdx, ThreadForPlayer.init]
    have hq0 : (ThreadForPlayer.init files).queue = [] := rfl
    rw [hq]
    simp only [hq0, List.map_nil, List.nil_append, he0, Nat.zero_add]

/-- C1 witness: with the catalog built from files B.wav, A.wav, C.wav,
four successive next-in-sequence requests enqueue A.wav, B.wav, C.wav,
A.wav. -/
theorem play_next_sound_cycles_witness :
    ([("B.wav", (1 : ℚ)), ("A.wav", 2), ("C.wav", 1)] : List (String × ℚ)) ≠ [] ∧
    (List.Sorted (fun a b : String => strLe a b = true)
      (ThreadForPlayer.init
        [("B.wav", (1 : ℚ)), ("A.wav", 2), ("C.wav", 1)]).sound_names ∧
    ∃ s', ThreadForPlayer.playNextN "pygame" ""
        (ThreadForPlayer.init [("B.wav", (1 : ℚ)), ("A.wav", 2), ("C.wav", 1)]) 4 =
        some s' ∧
      s'.queue.map QueueItem.name =
        (List.range 4).map
          (fun i => (ThreadForPlayer.init
              [("B.wav", (1 : ℚ)), ("A.wav", 2), ("C.wav", 1)]).sound_names.getD
            (i % (ThreadForPlayer.init
              [("B.wav", (1 : ℚ)), ("A.wav", 2), ("C.wav", 1)]).sound_names.length)
            "")) ∧
    (ThreadForPlayer.playNextN "pygame" ""
        (ThreadForPlayer.init [("B.wav", (1 : ℚ)), ("A.wav", 2), ("C.wav", 1)]) 4).map
      (fun s' => s'.queue.map QueueItem.name) =
      some ["A.wav", "B.wav", "C.wav", "A.wav"] :=
  ⟨by decide, play_next_sound_cycles _ "pygame" "" 4 (by decide), by decide⟩

/-- C2: while the scheduler is busy until time u and now is before u, the
loop step plays nothing and leaves the state unchanged, and an incoming
request of either kind only appends to the single shared queue without
touching the busy window; once now has reached u, a loop step either
does nothing at the exact boundary instant, where the strict comparison
of the source still gates, or services exactly the oldest queued
request, so requests of both kinds are serviced in FIFO order. -/
theorem busy_gate_and_fifo (s : PlayerState) (now u : ℚ)
    (hbusy : s.finish_time = some u) :
    (now < u →
      ThreadForPlayer.runStep now s = (s, none) ∧
      (∀ library device s',
        ThreadForPlayer.play_next_sound library device s = some s' →
          s'.finish_time = some u ∧ ∃ it, s'.queue = s.queue ++ [it]) ∧
      (∀ sound_name library device s',
        ThreadForPlayer.play_sound_by_name sound_name library device s = some s' →
          s'.finish_time = some u ∧
            (s'.queue = s.queue ∨ ∃ it, s'.queue = s.queue ++ [it]))) ∧
    (u ≤ now → ∀ it rest, s.queue = it :: rest →
      (now = u ∧ ThreadForPlayer.runStep now s = (s, none)) ∨
      ThreadForPlayer.runStep now s =
        ({ s with
            queue := rest
            finish_time := some (now + it.sound.duration + 1/10) },
         some (backendCallFor it.library it.device it.name, it.name))) := by
  constructor
  · intro hlt
    refine ⟨?_, ?_, ?_⟩
    · exact runStep_skip now s
        (canPlay_false_of_busy now u s hbusy (not_lt.mpr (le_of_lt hlt)))
    · intro library device s' h
      obtain ⟨hft, _, _, hq⟩ := play_next_sound_frame library device s s' h
      exact ⟨hft.trans hbusy, hq⟩
    · intro sound_name library device s' h
      obtain ⟨hft, _, _, _, hq⟩ :=
        play_sound_by_name_frame sound_name library device s s' h
      exact ⟨hft.trans hbusy, hq⟩
  · intro hle it rest hq
    rcases eq_or_lt_of_le hle with heq | hlt
    · left
      exact ⟨heq.symm,
        runStep_skip now s (canPlay_false_of_busy now u s hbusy (not_lt.mpr heq.ge))⟩
    · right
      exact runStep_play now s it rest hq
        (canPlay_true_of_elapsed now u s it rest hq hbusy hlt)

/-- C2 witness: a state busy until 5 gates a loop step at time 3, and at
time 6 the loop step services the queued head request. -/
theorem busy_gate_and_fifo_witness :
    ThreadForPlayer.runStep 3 exBusy = (exBusy, none) ∧
    ThreadForPlayer.runStep 6 exBusy =
      ({ exBusy with queue := [], finish_time := some (6 + 2 + 1/10) },
       some (BackendCall.pygame "A.wav", "A.wav")) := by
  constructor
  · exact ((busy_gate_and_fifo exBusy 3 5 rfl).1 (by norm_num)).1
  · have h := (busy_gate_and_fifo exBusy 6 5 rfl).2 (by norm_num)
      ⟨⟨2⟩, "A.wav", "pygame", ""⟩ [] rfl
    rcases h with ⟨h6, _⟩ | h
    · exact absurd h6 (by norm_num)
    · exact h

/-- C3: a loop step from the Idle state with a queued request issues the
backend call in that same step, sets the busy window to
now + duration + 1/10, the guard interval being the fixed 0.1 second of
the source, and emits the sound_played notification carrying the clip
name. -/
theorem idle_service_starts_playback (now : ℚ) (s : PlayerState) (it : QueueItem)
    (rest : List QueueItem) (hidle : s.finish_time = none)
    (hq : s.queue = it :: rest) :
    ThreadForPlayer.runStep now s =
      ({ s with
          queue := rest
          finish_time := some (now + it.sound.duration + 1/10) },
       some (backendCallFor it.library it.device it.name, it.name)) :=
  runStep_play now s it rest hq (canPlay_true_of_idle now s it rest hq hidle)

/-- C3 witness: the idle example state services its queued A.wav request
at time 0, becoming busy until 0 + 1 + 1/10. -/
theorem idle_service_starts_playback_witness :
    ThreadForPlayer.runStep 0 exIdle =
      ({ exIdle with queue := [], finish_time := some (0 + 1 + 1/10) },
       some (BackendCall.pygame "A.wav", "A.wav")) :=
  idle_service_starts_playback 0 exIdle ⟨⟨1⟩, "A.wav", "pygame", ""⟩ [] rfl rfl

/-- C4: a named request whose clip name is absent from the catalog
returns with the scheduler state fully unchanged: the loop falls
through, nothing is enqueued, no backend call and no notification can
result later, and no exception is raised. -/
theorem unknown_name_dropped (s : PlayerState) (sound_name library device : String)
    (h : sound_name ∉ s.sound_names) :
    ThreadForPlayer.play_sound_by_name sound_name library device s = some s := by
  unfold ThreadForPlayer.play_sound_by_name
  rw [findSoundIndex_eq_none sound_name s.sound_names 0 h]

/-- C4 witness: a request for the unknown name zz.wav leaves the busy
example state untouched. -/
theorem unknown_name_dropped_witness :
    ThreadForPlayer.play_sound_by_name "zz.wav" "pygame" "" exBusy = some exBusy :=
  unknown_name_dropped exBusy "zz.wav" "pygame" "" (by decide)

/-- C5: stop_current_queue empties the queue and changes nothing else,
in particular the busy window and the cursor survive; a
next-in-sequence request arriving after the clear while still busy is
enqueued as the single queue element, the busy window is still in
force, and a loop step before the busy deadline still plays nothing. -/
theorem clear_pending_only_queue (s : PlayerState) :
    ThreadForPlayer.stop_current_queue s = { s with queue := [] } ∧
    (∀ now u library device s', s.finish_time = some u → now < u →
      ThreadForPlayer.play_next_sound library device
          (ThreadForPlayer.stop_current_queue s) = some s' →
      s'.finish_time = some u ∧ (∃ it, s'.queue = [it]) ∧
      ThreadForPlayer.runStep now s' = (s', none)) := by
  refine ⟨rfl, ?_⟩
  intro now u library device s' hft hlt h
  obtain ⟨hft', _, _, it, hq⟩ := play_next_sound_frame library device _ s' h
  have h1 : s'.finish_time = some u := by rw [hft']; exact hft
  refine ⟨h1, ⟨it, hq⟩, ?_⟩
  exact runStep_skip now s' (canPlay_false_of_busy now u s' h1 (not_lt.mpr (le_of_lt hlt)))

/-- C5 witness: clearing the busy example state empties only the queue;
a next-in-sequence request arriving afterwards is queued and a loop
step at time 3, before the busy deadline 5, plays nothing. -/
theorem clear_pending_only_queue_witness :
    ThreadForPlayer.stop_current_queue exBusy = { exBusy with queue := [] } ∧
    exAfterClear.finish_time = some 5 ∧
    ThreadForPlayer.runStep 3 exAfterClear = (exAfterClear, none) := by
  refine ⟨(clear_pending_only_queue exBusy).1, ?_, ?_⟩
  · exact ((clear_pending_only_queue exBusy).2 3 5 "epsound" "dev" exAfterClear rfl
      (by norm_num) (by decide)).1
  · exact ((clear_pending_only_queue exBusy).2 3 5 "epsound" "dev" exAfterClear rfl
      (by norm_num) (by decide)).2.2

/-- C6 counterexample: the claim that a backend error leaves the worker
loop running with a future busy window fails at this concrete input:
the idle example state with a ready request yields Except.error when the
backend raises during the service step, so the uncaught exception
leaves run, the loop terminates, no busy window is set and no
notification is emitted. -/
theorem backend_error_terminates_loop_cex :
    ThreadForPlayer.runStepExc true 0 exIdle = Except.error () := rfl

/-- C6 amended: the source contains no try/except, so whenever the loop
condition holds and the backend call of _play_sound raises, the
exception propagates out of run and the worker loop terminates, with no
busy window set and nothing emitted. -/
theorem backend_error_terminates_loop (now : ℚ) (s : PlayerState)
    (h : ThreadForPlayer.canPlay now s = true) :
    ThreadForPlayer.runStepExc true now s = Except.error () := by
  cases hq : s.queue with
  | nil =>
      exfalso
      unfold ThreadForPlayer.canPlay at h
      rw [hq] at h
      simp at h
  | cons it rest =>
      unfold ThreadForPlayer.runStepExc
      rw [h, hq]
      simp

/-- C6 witness: the example state past its busy deadline is ready to
play at time 1, and a raising backend terminates the loop there. -/
theorem backend_error_terminates_loop_witness :
    ThreadForPlayer.canPlay 1 exErr = true ∧
    ThreadForPlayer.runStepExc true 1 exErr = Except.error () :=
  ⟨by decide, backend_error_terminates_loop 1 exErr (by decide)⟩

/-- C7 counterexample: the claim that every non-positive interval is
rejected and leaves the trigger disarmed fails at the concrete input 0:
the text 0 parses, int returns 0, which is non-positive, and start arms
the timer with interval 0 instead of rejecting. -/
theorem zero_interval_arms_timer_cex :
    pyInt "0" = some 0 ∧ (0 : Int) ≤ 0 ∧
    MainWindow.start "0" { active := false, interval := 100 } =
      ({ active := true, interval := 0 }, StartOutcome.launched 0) := by decide

/-- C7 amended: start rejects exactly the texts int cannot parse,
logging the wrong-value message and leaving the timer untouched, and
arms the timer for every text that parses to an integer, including the
non-positive value 0, the only such value the digit-only input
validator lets through. -/
theorem start_validation (text : String) (w : TimerState) :
    (pyInt text = none →
      MainWindow.start text w =
        (w, StartOutcome.rejected ("Wrong delay time value " ++ text))) ∧
    (∀ delay : Int, pyInt text = some delay →
      MainWindow.start text w =
        ({ active := true, interval := delay }, StartOutcome.launched delay)) := by
  constructor
  · intro h
    unfold MainWindow.start
    rw [h]
  · intro delay h
    unfold MainWindow.start
    rw [h]

/-- C7 witness: the non-numeric text abc is rejected with the timer
untouched, and the text 250 arms the timer at interval 250. -/
theorem start_validation_witness :
    MainWindow.start "abc" { active := false, interval := 100 } =
      ({ active := false, interval := 100 },
       StartOutcome.rejected ("Wrong delay time value " ++ "abc")) ∧
    MainWindow.start "250" { active := false, interval := 100 } =
      ({ active := true, interval := 250 }, StartOutcome.launched 250) :=
  ⟨(start_validation "abc" { active := false, interval := 100 }).1 (by decide),
   (start_validation "250" { active := false, interval := 100 }).2 250 (by decide)⟩

/-- C8 counterexample: the claim that an empty audio directory makes
initialization fail with a startup-fatal error fails on the code: init
on the empty directory succeeds and produces the empty-catalog state,
the worker loop runs and idles on it, and the next-in-sequence request
is attempted and dies on the list indexing, modelled as none, rather
than being prevented at startup. -/
theorem empty_catalog_no_startup_failure_cex :
    (ThreadForPlayer.init []).sound_names = [] ∧
    ThreadForPlayer.play_next_sound "pygame" "" (ThreadForPlayer.init []) = none ∧
    ThreadForPlayer.runStep 0 (ThreadForPlayer.init []) =
      (ThreadForPlayer.init [], none) :=
  ⟨rfl, rfl, rfl⟩

/-- C8 amended: initialization on an empty audio directory succeeds with
an empty catalog and no error of any kind, the worker loop runs and
does nothing on it, and every next-in-sequence request then raises an
uncaught IndexError, modelled as none; the code defines no
EmptyCatalogError and performs no startup emptiness check. -/
theorem empty_catalog_behavior (library device : String) (now : ℚ) :
    ThreadForPlayer.init [] =
      { finish_time := none, index := 0, queue := [],
        sound_names := [], sounds := [] } ∧
    ThreadForPlayer.play_next_sound library device (ThreadForPlayer.init []) = none ∧
    ThreadForPlayer.runStep now (ThreadForPlayer.init []) =
      (ThreadForPlayer.init [], none) :=
  ⟨rfl, rfl, rfl⟩

/-- C9: the stop action of the periodic trigger disarms the timer and,
through the sounds_not_required connection to stop_current_queue, clears
the pending queue, leaving everything else of both states unchanged, so
a subsequent loop step finds nothing to play: no stale enqueued request
fires after stop. -/
theorem stop_disarms_and_clears (w : TimerState) (p : PlayerState) (now : ℚ) :
    (MainWindow.stop w p).1 = { w with active := false } ∧
    (MainWindow.stop w p).2 = { p with queue := [] } ∧
    ThreadForPlayer.runStep now (MainWindow.stop w p).2 =
      ((MainWindow.stop w p).2, none) :=
  ⟨rfl, rfl, rfl⟩

/-- C10: the catalog cursor is never moved by a named request, known or
unknown, nor by a queue clear, so the cycling position persists across
interleaved named plays and clears. -/
theorem cursor_untouched (s : PlayerState) (sound_name library device : String) :
    (∀ s', ThreadForPlayer.play_sound_by_name sound_name library device s = some s' →
      s'.index = s.index) ∧
    (ThreadForPlayer.stop_current_queue s).index = s.index := by
  refine ⟨?_, rfl⟩
  intro s' h
  exact (play_sound_by_name_frame sound_name library device s s' h).2.1

/-- C10 witness: a named request for the known name A.wav and a queue
clear both leave the cursor of the busy example state at 0. -/
theorem cursor_untouched_witness :
    exKnown.index = exBusy.index ∧
    (ThreadForPlayer.stop_current_queue exBusy).index = exBusy.index :=
  ⟨(cursor_untouched exBusy "A.wav" "pygame" "").1 exKnown (by decide),
   (cursor_untouched exBusy "A.wav" "pygame" "").2⟩
